import Mathlib

/-!
Shallow embedding of the titanic repository's authentication subsystem:
`src/auth_service/app/{models,security,storage,dependencies,main}.py` and
`src/passenger_service/app/dependencies.py`, with theorems checking the
natural-language specification against it.

Conventions of the embedding:
* machine time is a `Nat` (seconds); every function of the source that reads
  `datetime.utcnow()` takes the current time as an explicit `now` argument;
* fallible code returns `Except HTTPError` (an `HTTPException` raised in
  Python is an `Except.error` here);
* the two external libraries the source calls (passlib's bcrypt context and
  python-jose's JWT encoder) are not part of the repository; they are
  modelled by executable abstractions (`hash_password`, `JwtString`) whose
  doc comments state exactly what is abstracted.
-/

namespace Titanic

/-! ### models.py -/

/-- `UserRole` from models.py: roles are `admin` and `user`. -/
inductive UserRole where
  | admin
  | user
deriving DecidableEq, Repr

/-- The `.value` of the str-enum member, as used in `role.value` call sites. -/
def UserRole.value : UserRole → String
  | .admin => "admin"
  | .user => "user"

/-- `UserInDB` from models.py: the stored record, including the password hash. -/
structure UserInDB where
  id : Nat
  username : String
  email : Option String
  password_hash : String
  role : UserRole
  is_active : Bool
  created_at : Nat
deriving DecidableEq, Repr

/-- `User` from models.py: the outward-facing record, without the password hash. -/
structure User where
  id : Nat
  username : String
  email : Option String
  role : UserRole
  is_active : Bool
  created_at : Nat
deriving DecidableEq, Repr

/-- `RegisterRequest` from models.py (username, password, optional email). -/
structure RegisterRequest where
  username : String
  password : String
  email : Option String
deriving DecidableEq, Repr

/-- `LoginRequest` from models.py. -/
structure LoginRequest where
  username : String
  password : String
deriving DecidableEq, Repr

/-- `TokenData` from models.py: the claims recovered by `decode_token`;
every field is `Optional` in the source. -/
structure TokenData where
  username : Option String
  user_id : Option Nat
  role : Option String
deriving DecidableEq, Repr

/-- An `HTTPException` as raised by the FastAPI handlers: status code and detail. -/
structure HTTPError where
  status : Nat
  detail : String
deriving DecidableEq, Repr

/-! ### security.py -/

/-- `SECRET_KEY` from security.py (the default value of the environment lookup). -/
def SECRET_KEY : String := "titanic-super-secret-key-change-in-production-2024"

/-- `ACCESS_TOKEN_EXPIRE_MINUTES` from security.py (default 15). -/
def ACCESS_TOKEN_EXPIRE_MINUTES : Nat := 15

/-- `REFRESH_TOKEN_EXPIRE_DAYS` from security.py (default 7). -/
def REFRESH_TOKEN_EXPIRE_DAYS : Nat := 7

/-- Modelled from the spec: passlib's bcrypt `CryptContext.hash` is an
external library.  The spec only requires a one-way hash whose verification
recomputes and compares; the random salt is abstracted away (no claim in
this development depends on it), so the model is a deterministic injective
tagging of the password. -/
def hash_password (password : String) : String :=
  "bcrypt-2b-12$" ++ password

/-- Modelled from the spec: passlib's `CryptContext.verify` recomputes the
hash of the plaintext and compares it with the stored hash string. -/
def verify_password (plain_password : String) (hashed_password : String) : Bool :=
  hashed_password == hash_password plain_password

/-- The claim set carried by a JWT issued by this system: `sub`, `user_id`,
`role`, `type` and `exp`.  An `Option` field models the presence or absence
of the corresponding key in the payload dict. -/
structure JwtClaims where
  sub : Option String
  user_id : Option Nat
  role : Option String
  type : Option String
  exp : Nat
deriving DecidableEq, Repr

/-- Modelled from the spec: python-jose's token strings are an external
library's format.  A string is either a well-formed token signed with some
key (the image of `jwt.encode`), or any other string, which no key decodes. -/
inductive JwtString where
  | signed (claims : JwtClaims) (key : String)
  | garbage (s : String)
deriving DecidableEq, Repr

/-- Modelled from the spec: `jose.jwt.encode(payload, key, HS256)`. -/
def jwtEncode (claims : JwtClaims) (key : String) : JwtString :=
  .signed claims key

/-- Modelled from the spec: `jose.jwt.decode(token, key, [HS256])` verifies
the signature (the signing key must match) and the `exp` claim (rejects once
the expiry instant has been reached), and raises `JWTError` otherwise —
modelled as `none`. -/
def jwtDecode (token : JwtString) (key : String) (now : Nat) : Option JwtClaims :=
  match token with
  | .signed claims k => if k = key ∧ now < claims.exp then some claims else none
  | .garbage _ => none

/-- The payload dict built at every issuing call site in main.py:
`{"sub": username, "user_id": id, "role": role}`. -/
structure TokenPayload where
  sub : String
  user_id : Nat
  role : String
deriving DecidableEq, Repr

/-- `create_access_token` from security.py: adds `exp` (now plus
`expires_delta`, default 15 minutes) and `type = "access"`, then signs with
`SECRET_KEY`.  `expires_delta` is in seconds. -/
def create_access_token (data : TokenPayload) (now : Nat)
    (expires_delta : Option Nat := none) : JwtString :=
  let expire :=
    match expires_delta with
    | some d => now + d
    | none => now + ACCESS_TOKEN_EXPIRE_MINUTES * 60
  jwtEncode { sub := some data.sub, user_id := some data.user_id,
              role := some data.role, type := some "access", exp := expire }
    SECRET_KEY

/-- `create_refresh_token` from security.py: `exp` is now plus 7 days,
`type = "refresh"`, signed with `SECRET_KEY`. -/
def create_refresh_token (data : TokenPayload) (now : Nat) : JwtString :=
  jwtEncode { sub := some data.sub, user_id := some data.user_id,
              role := some data.role, type := some "refresh",
              exp := now + REFRESH_TOKEN_EXPIRE_DAYS * 86400 }
    SECRET_KEY

/-- `decode_token` from security.py: decodes with `SECRET_KEY`; returns
`none` on any `JWTError` or when the `sub` claim is missing; otherwise the
`TokenData` with username, user id and role. -/
def decode_token (token : JwtString) (now : Nat) : Option TokenData :=
  match jwtDecode token SECRET_KEY now with
  | none => none
  | some payload =>
    match payload.sub with
    | none => none
    | some username =>
      some { username := some username, user_id := payload.user_id,
             role := payload.role }

/-- `verify_token_type` from security.py: decodes and compares the `type`
claim with the expected one; `false` (not an error) when decoding fails. -/
def verify_token_type (token : JwtString) (expected_type : String) (now : Nat) : Bool :=
  match jwtDecode token SECRET_KEY now with
  | none => false
  | some payload => payload.type == some expected_type

/-- Python `str.lower()` as used by the store and the header check,
written char-wise over the string's character list so that it is
structurally recursive and evaluates in proofs (`String.toLower` in core is
defined by well-founded recursion on byte positions and does not reduce). -/
def pyLower (s : String) : String :=
  String.mk (s.data.map Char.toLower)

/-! ### storage.py

Python dicts are embedded as association lists built only through
`dictInsert` (replace in place when the key exists, append otherwise, like a
dict assignment), and the `refresh_tokens : Set[str]` as a duplicate-free
list with membership test, add and discard. -/

/-- Lookup in an association list (dict `.get`). -/
def dictGet {κ α : Type} [DecidableEq κ] (k : κ) : List (κ × α) → Option α
  | [] => none
  | (k₀, v₀) :: rest => if k₀ = k then some v₀ else dictGet k rest

/-- Dict assignment `d[k] = v`: replace the binding in place if the key is
present, append otherwise. -/
def dictInsert {κ α : Type} [DecidableEq κ] (k : κ) (v : α) : List (κ × α) → List (κ × α)
  | [] => [(k, v)]
  | (k₀, v₀) :: rest => if k₀ = k then (k, v) :: rest else (k₀, v₀) :: dictInsert k v rest

/-- Set membership `t in s` for the refresh-token set. -/
def setMem (t : JwtString) : List JwtString → Bool
  | [] => false
  | x :: xs => if x = t then true else setMem t xs

/-- Python `set.add`: no-op when already present. -/
def setAdd (t : JwtString) (l : List JwtString) : List JwtString :=
  if setMem t l then l else l ++ [t]

/-- Python `set.discard`: remove the element if present, no-op (and no
error) otherwise. -/
def setDiscard (t : JwtString) : List JwtString → List JwtString
  | [] => []
  | x :: xs => if x = t then setDiscard t xs else x :: setDiscard t xs

/-- `UserStorage` from storage.py: users by id, users by (lower-cased)
username, the set of active refresh tokens, and the next id counter. -/
structure UserStorage where
  users : List (Nat × UserInDB)
  users_by_username : List (String × UserInDB)
  refresh_tokens : List JwtString
  next_id : Nat
deriving DecidableEq, Repr

namespace UserStorage

/-- `UserStorage.__init__` with `_create_default_users` from storage.py: the
fresh store already holds user `admin` (id 1, role admin) and `testuser`
(id 2, role user), both active, and `next_id = 3`. -/
def init (now : Nat) : UserStorage :=
  let admin : UserInDB :=
    { id := 1, username := "admin", email := some "admin@titanic.local",
      password_hash := hash_password "admin123", role := .admin,
      is_active := true, created_at := now }
  let user : UserInDB :=
    { id := 2, username := "testuser", email := some "user@titanic.local",
      password_hash := hash_password "user123", role := .user,
      is_active := true, created_at := now }
  { users := dictInsert user.id user (dictInsert admin.id admin []),
    users_by_username :=
      dictInsert user.username user (dictInsert admin.username admin []),
    refresh_tokens := [],
    next_id := 3 }

/-- `get_user_by_username` from storage.py: lower-cases the input. -/
def get_user_by_username (st : UserStorage) (username : String) : Option UserInDB :=
  dictGet (pyLower username) st.users_by_username

/-- `get_user_by_id` from storage.py. -/
def get_user_by_id (st : UserStorage) (user_id : Nat) : Option UserInDB :=
  dictGet user_id st.users

/-- `create_user` from storage.py: rejects (raises `ValueError`, modelled as
`Except.error` carrying the message) when the lower-cased username is
already a key of `users_by_username`; otherwise stores a new user under
`next_id` with the given role (default `UserRole.user`), updates both
indices and increments the counter. -/
def create_user (st : UserStorage) (user_data : RegisterRequest) (now : Nat)
    (role : UserRole := .user) : Except String (UserInDB × UserStorage) :=
  let username_lower := pyLower user_data.username
  if (dictGet username_lower st.users_by_username).isSome then
    .error ("User with username " ++ user_data.username ++ " already exists")
  else
    let user : UserInDB :=
      { id := st.next_id, username := username_lower, email := user_data.email,
        password_hash := hash_password user_data.password, role := role,
        is_active := true, created_at := now }
    .ok (user,
      { st with
        users := dictInsert user.id user st.users,
        users_by_username := dictInsert username_lower user st.users_by_username,
        next_id := st.next_id + 1 })

/-- `update_user` from storage.py: `(none, st)` when the id is absent; with
an email given, stores a copy of the record whose only changed field is the
email, re-indexing both dicts; with no email, returns the record unchanged. -/
def update_user (st : UserStorage) (user_id : Nat)
    (email : Option String := none) : Option UserInDB × UserStorage :=
  match dictGet user_id st.users with
  | none => (none, st)
  | some user =>
    match email with
    | none => (some user, st)
    | some e =>
      let updated_user : UserInDB :=
        { id := user.id, username := user.username, email := some e,
          password_hash := user.password_hash, role := user.role,
          is_active := user.is_active, created_at := user.created_at }
      (some updated_user,
        { st with
          users := dictInsert user_id updated_user st.users,
          users_by_username :=
            dictInsert user.username updated_user st.users_by_username })

/-- `add_refresh_token` from storage.py. -/
def add_refresh_token (st : UserStorage) (token : JwtString) : UserStorage :=
  { st with refresh_tokens := setAdd token st.refresh_tokens }

/-- `remove_refresh_token` from storage.py (`set.discard`: no error when
the token is absent). -/
def remove_refresh_token (st : UserStorage) (token : JwtString) : UserStorage :=
  { st with refresh_tokens := setDiscard token st.refresh_tokens }

/-- `is_refresh_token_valid` from storage.py: set membership. -/
def is_refresh_token_valid (st : UserStorage) (token : JwtString) : Bool :=
  setMem token st.refresh_tokens

/-- `count` from storage.py: `len(self.users)`. -/
def count (st : UserStorage) : Nat :=
  st.users.length

end UserStorage

/-! ### auth_service dependencies.py -/

/-- Helper for `pyWords`: walk the character list accumulating the current
word, emitting it at each whitespace run boundary. -/
def wordsAux : List Char → List Char → List String
  | [], acc => if acc.isEmpty then [] else [String.mk acc]
  | c :: rest, acc =>
    if c.isWhitespace then
      if acc.isEmpty then wordsAux rest [] else String.mk acc :: wordsAux rest []
    else wordsAux rest (acc ++ [c])

/-- Python `str.split()` with no argument: split on runs of whitespace,
dropping empty pieces.  Structurally recursive (see `pyLower`). -/
def pyWords (s : String) : List String :=
  wordsAux s.data []

namespace AuthService

/-- `get_current_user` from auth_service dependencies.py.  The raw
`Authorization` header is an `Option String`; `tm` is the meaning of a
string as a token (the external JWT format, see `JwtString`): the source
hands the substring after `Bearer` to `decode_token`.  Fails 401 when the
header is missing, when it does not split into exactly two words whose
first lower-cases to `bearer`, when the token does not decode (or carries
no username), or when the referenced user is not in the store; on success
returns the `User` (password hash stripped). -/
def get_current_user (authorization : Option String) (tm : String → JwtString)
    (st : UserStorage) (now : Nat) : Except HTTPError User :=
  match authorization with
  | none => .error { status := 401, detail := "Authorization header missing" }
  | some header =>
    match pyWords header with
    | [scheme, token] =>
      if pyLower scheme ≠ "bearer" then
        .error { status := 401,
                 detail := "Invalid authorization header format. Use: Bearer <token>" }
      else
        match decode_token (tm token) now with
        | none => .error { status := 401, detail := "Could not validate credentials" }
        | some token_data =>
          match token_data.username with
          | none => .error { status := 401, detail := "Could not validate credentials" }
          | some uname =>
            match st.get_user_by_username uname with
            | none => .error { status := 401, detail := "Could not validate credentials" }
            | some user =>
              .ok { id := user.id, username := user.username, email := user.email,
                    role := user.role, is_active := user.is_active,
                    created_at := user.created_at }
    | _ =>
      .error { status := 401,
               detail := "Invalid authorization header format. Use: Bearer <token>" }

/-- `get_current_active_user` from dependencies.py: 403 when inactive. -/
def get_current_active_user (authorization : Option String) (tm : String → JwtString)
    (st : UserStorage) (now : Nat) : Except HTTPError User :=
  match get_current_user authorization tm st now with
  | .error e => .error e
  | .ok current_user =>
    if !current_user.is_active then
      .error { status := 403, detail := "Inactive user" }
    else
      .ok current_user

/-- `require_admin` from dependencies.py: 403 when the role is not admin. -/
def require_admin (authorization : Option String) (tm : String → JwtString)
    (st : UserStorage) (now : Nat) : Except HTTPError User :=
  match get_current_active_user authorization tm st now with
  | .error e => .error e
  | .ok current_user =>
    if current_user.role ≠ UserRole.admin then
      .error { status := 403, detail := "Admin access required" }
    else
      .ok current_user

/-! ### auth_service main.py -/

/-- `TokenResponse` from models.py. -/
structure TokenResponse where
  access_token : JwtString
  refresh_token : JwtString
  token_type : String
  expires_in : Nat
deriving DecidableEq, Repr

/-- `register` from main.py: creates the user through
`storage.create_user(user_data)` — note: no role argument is passed, so
`create_user` uses its default `UserRole.user` — issues both tokens, records
the refresh token, and returns the bundle; a `ValueError` from the store
becomes a 400. -/
def register (user_data : RegisterRequest) (st : UserStorage) (now : Nat) :
    Except HTTPError (TokenResponse × UserStorage) :=
  match st.create_user user_data now with
  | .error msg => .error { status := 400, detail := msg }
  | .ok (user, st₁) =>
    let access := create_access_token
      { sub := user.username, user_id := user.id, role := user.role.value }
      now (some (ACCESS_TOKEN_EXPIRE_MINUTES * 60))
    let refresh := create_refresh_token
      { sub := user.username, user_id := user.id, role := user.role.value } now
    let st₂ := st₁.add_refresh_token refresh
    .ok ({ access_token := access, refresh_token := refresh,
           token_type := "bearer", expires_in := ACCESS_TOKEN_EXPIRE_MINUTES * 60 }, st₂)

/-- `login` from main.py: 401 when the user is unknown or the password does
not verify, 403 when inactive; otherwise issues both tokens and records the
refresh token. -/
def login (credentials : LoginRequest) (st : UserStorage) (now : Nat) :
    Except HTTPError (TokenResponse × UserStorage) :=
  match st.get_user_by_username credentials.username with
  | none => .error { status := 401, detail := "Incorrect username or password" }
  | some user =>
    if !verify_password credentials.password user.password_hash then
      .error { status := 401, detail := "Incorrect username or password" }
    else if !user.is_active then
      .error { status := 403, detail := "User is inactive" }
    else
      let access := create_access_token
        { sub := user.username, user_id := user.id, role := user.role.value }
        now (some (ACCESS_TOKEN_EXPIRE_MINUTES * 60))
      let refresh := create_refresh_token
        { sub := user.username, user_id := user.id, role := user.role.value } now
      .ok ({ access_token := access, refresh_token := refresh,
             token_type := "bearer", expires_in := ACCESS_TOKEN_EXPIRE_MINUTES * 60 },
           st.add_refresh_token refresh)

/-- `refresh_token` from main.py (the `/refresh` endpoint): 401 when the
token is not refresh-typed, not in the active set, does not decode or has a
falsy username, or when the referenced user is missing or inactive;
otherwise a new access token with the same refresh token echoed back.  The
store is not modified. -/
def refresh_token (request : JwtString) (st : UserStorage) (now : Nat) :
    Except HTTPError TokenResponse :=
  if !verify_token_type request "refresh" now then
    .error { status := 401, detail := "Invalid token type. Refresh token required" }
  else if !st.is_refresh_token_valid request then
    .error { status := 401, detail := "Refresh token has been revoked or is invalid" }
  else
    match decode_token request now with
    | none => .error { status := 401, detail := "Invalid refresh token" }
    | some token_data =>
      match token_data.username with
      | none => .error { status := 401, detail := "Invalid refresh token" }
      | some uname =>
        if uname = "" then
          .error { status := 401, detail := "Invalid refresh token" }
        else
          match st.get_user_by_username uname with
          | none => .error { status := 401, detail := "User not found or inactive" }
          | some user =>
            if !user.is_active then
              .error { status := 401, detail := "User not found or inactive" }
            else
              .ok { access_token := create_access_token
                      { sub := user.username, user_id := user.id,
                        role := user.role.value }
                      now (some (ACCESS_TOKEN_EXPIRE_MINUTES * 60)),
                    refresh_token := request, token_type := "bearer",
                    expires_in := ACCESS_TOKEN_EXPIRE_MINUTES * 60 }

/-- `update_me` from main.py: updates the authenticated user's email through
`storage.update_user`; 404 when the id has vanished; otherwise the updated
public `User`. -/
def update_me (email : Option String) (current_user : User) (st : UserStorage) :
    Except HTTPError (User × UserStorage) :=
  match st.update_user current_user.id email with
  | (none, _) => .error { status := 404, detail := "User not found" }
  | (some updated_user, st₁) =>
    .ok ({ id := updated_user.id, username := updated_user.username,
           email := updated_user.email, role := updated_user.role,
           is_active := updated_user.is_active,
           created_at := updated_user.created_at }, st₁)

/-- `logout` from main.py: requires an authenticated active user (the
`Depends(get_current_active_user)` chain), then discards the submitted
refresh token from the active set and returns 204 (the updated store). -/
def logout (authorization : Option String) (tm : String → JwtString)
    (request : JwtString) (st : UserStorage) (now : Nat) :
    Except HTTPError UserStorage :=
  match get_current_active_user authorization tm st now with
  | .error e => .error e
  | .ok _ => .ok (st.remove_refresh_token request)

end AuthService

/-! ### passenger_service dependencies.py -/

namespace PassengerService

/-- The outcome of the blocking call this service makes to the identity
service's `/me` endpoint: either an HTTP response with a status code and a
parsed JSON body, or a raised `httpx.RequestError` (timeout, connection
failure). -/
inductive DownstreamResult (α : Type) where
  | response (status : Nat) (body : α)
  | networkError
deriving DecidableEq, Repr

/-- `get_current_user` from passenger_service dependencies.py: 401 when the
`Authorization` header is missing; otherwise it forwards the header to the
identity service and maps the outcome — a downstream 401 to its own 401, any
other non-200 status to 503, and a network failure (`httpx.RequestError`) to
503; a 200 yields the downstream body as the caller's identity. -/
def get_current_user {α : Type} (authorization : Option String)
    (downstream : DownstreamResult α) : Except HTTPError α :=
  match authorization with
  | none =>
    .error { status := 401,
             detail := "Authorization header missing. Please provide: Authorization: Bearer <token>" }
  | some _ =>
    match downstream with
    | .networkError =>
      .error { status := 503, detail := "Cannot connect to Auth Service" }
    | .response code body =>
      if code = 401 then
        .error { status := 401, detail := "Invalid or expired token" }
      else if code ≠ 200 then
        .error { status := 503, detail := "Auth service unavailable" }
      else
        .ok body

end PassengerService

/-- Decidable equality on `Except`, so that concrete endpoint outcomes can
be checked by evaluation. -/
instance exceptDecEq {ε α : Type} [DecidableEq ε] [DecidableEq α] :
    DecidableEq (Except ε α) := fun x y =>
  match x, y with
  | .ok a, .ok b =>
    if h : a = b then .isTrue (by rw [h]) else .isFalse (fun hx => h (by cases hx; rfl))
  | .ok _, .error _ => .isFalse (fun hx => Except.noConfusion hx)
  | .error _, .ok _ => .isFalse (fun hx => Except.noConfusion hx)
  | .error e, .error f =>
    if h : e = f then .isTrue (by rw [h]) else .isFalse (fun hx => h (by cases hx; rfl))

/-- Fixture for concrete scenarios: a token-meaning function under which
every header substring denotes the default admin's access token issued at
time 0 (with the default 15-minute expiry). -/
def adminTokenMeaning : String → JwtString :=
  fun _ => create_access_token { sub := "admin", user_id := 1, role := "admin" } 0

/-! ### Basic lemmas about the dict and set embeddings -/

theorem dictGet_insert_self {κ α : Type} [DecidableEq κ] (k : κ) (v : α)
    (d : List (κ × α)) : dictGet k (dictInsert k v d) = some v := by
  induction d with
  | nil => simp [dictGet, dictInsert]
  | cons hd tl ih =>
    obtain ⟨k₀, v₀⟩ := hd
    by_cases h : k₀ = k
    · simp [dictGet, dictInsert, h]
    · simp [dictGet, dictInsert, h, ih]

theorem dictGet_insert_ne {κ α : Type} [DecidableEq κ] {k j : κ} (v : α)
    (d : List (κ × α)) (h : j ≠ k) :
    dictGet j (dictInsert k v d) = dictGet j d := by
  have h' : ¬ (k = j) := fun hkj => h hkj.symm
  induction d with
  | nil => simp [dictGet, dictInsert, h']
  | cons hd tl ih =>
    obtain ⟨k₀, v₀⟩ := hd
    by_cases hk : k₀ = k
    · subst hk
      simp [dictGet, dictInsert, h']
    · simp [dictGet, dictInsert, hk, ih]

theorem setMem_append_single (t : JwtString) (l : List JwtString) :
    setMem t (l ++ [t]) = true := by
  induction l with
  | nil => simp [setMem]
  | cons x xs ih => by_cases hx : x = t <;> simp [setMem, hx, ih]

theorem setMem_append_single_ne {s t : JwtString} (l : List JwtString)
    (h : ¬ (t = s)) : setMem s (l ++ [t]) = setMem s l := by
  induction l with
  | nil => simp [setMem, h]
  | cons x xs ih => by_cases hx : x = s <;> simp [setMem, hx, ih]

theorem setMem_setAdd_self (t : JwtString) (l : List JwtString) :
    setMem t (setAdd t l) = true := by
  unfold setAdd
  by_cases h : setMem t l
  · simp [h]
  · simp [h, setMem_append_single]

theorem setMem_setDiscard_self (t : JwtString) (l : List JwtString) :
    setMem t (setDiscard t l) = false := by
  induction l with
  | nil => simp [setDiscard, setMem]
  | cons x xs ih =>
    by_cases hx : x = t <;> simp [setDiscard, setMem, hx, ih]

theorem setMem_setDiscard_ne {s t : JwtString} (l : List JwtString) (h : s ≠ t) :
    setMem s (setDiscard t l) = setMem s l := by
  have h' : ¬ (t = s) := fun hts => h hts.symm
  induction l with
  | nil => rfl
  | cons x xs ih =>
    by_cases hx : x = t
    · subst hx
      simp [setDiscard, setMem, h', ih]
    · simp [setDiscard, setMem, hx, ih]

theorem setMem_setAdd_ne {s t : JwtString} (l : List JwtString) (h : s ≠ t) :
    setMem s (setAdd t l) = setMem s l := by
  have h' : ¬ (t = s) := fun hts => h hts.symm
  unfold setAdd
  by_cases hm : setMem t l
  · simp [hm]
  · simp [hm, setMem_append_single_ne l h']

theorem setDiscard_of_not_mem {t : JwtString} {l : List JwtString}
    (h : setMem t l = false) : setDiscard t l = l := by
  induction l with
  | nil => rfl
  | cons x xs ih =>
    by_cases hx : x = t
    · subst hx
      simp [setMem] at h
    · rw [setMem, if_neg hx] at h
      rw [setDiscard, if_neg hx, ih h]

theorem setDiscard_idem (t : JwtString) (l : List JwtString) :
    setDiscard t (setDiscard t l) = setDiscard t l :=
  setDiscard_of_not_mem (setMem_setDiscard_self t l)

/-! ### Lemmas about the store and the register endpoint -/

theorem users_by_username_add_refresh (st : UserStorage) (t : JwtString) :
    (st.add_refresh_token t).users_by_username = st.users_by_username := rfl

theorem users_by_username_remove_refresh (st : UserStorage) (t : JwtString) :
    (st.remove_refresh_token t).users_by_username = st.users_by_username := rfl

/-- A successful `register` call, written out: when the case-folded username
is free, the user is stored under `next_id` with role `user` (the endpoint
passes no role), both tokens are issued and the refresh token recorded. -/
theorem register_ok_of_free (st : UserStorage) (d : RegisterRequest) (now : Nat)
    (hfree : dictGet (pyLower d.username) st.users_by_username = none) :
    AuthService.register d st now =
      .ok ({ access_token := create_access_token
               { sub := pyLower d.username, user_id := st.next_id,
                 role := UserRole.user.value }
               now (some (ACCESS_TOKEN_EXPIRE_MINUTES * 60)),
             refresh_token := create_refresh_token
               { sub := pyLower d.username, user_id := st.next_id,
                 role := UserRole.user.value } now,
             token_type := "bearer",
             expires_in := ACCESS_TOKEN_EXPIRE_MINUTES * 60 },
           { users := dictInsert st.next_id
               { id := st.next_id, username := pyLower d.username, email := d.email,
                 password_hash := hash_password d.password, role := UserRole.user,
                 is_active := true, created_at := now } st.users,
             users_by_username := dictInsert (pyLower d.username)
               { id := st.next_id, username := pyLower d.username, email := d.email,
                 password_hash := hash_password d.password, role := UserRole.user,
                 is_active := true, created_at := now } st.users_by_username,
             refresh_tokens := setAdd
               (create_refresh_token
                 { sub := pyLower d.username, user_id := st.next_id,
                   role := UserRole.user.value } now) st.refresh_tokens,
             next_id := st.next_id + 1 }) := by
  unfold AuthService.register UserStorage.create_user UserStorage.add_refresh_token
  simp [hfree]

/-- A `register` call on a taken case-folded username errors with 400 and
the `ValueError` message. -/
theorem register_error_of_taken (st : UserStorage) (d : RegisterRequest) (now : Nat)
    (htaken : (dictGet (pyLower d.username) st.users_by_username).isSome = true) :
    AuthService.register d st now =
      .error { status := 400,
               detail := "User with username " ++ d.username ++ " already exists" } := by
  unfold AuthService.register UserStorage.create_user
  simp [htaken]

/-! ### Claim theorems -/

/-- C10: a freshly constructed user store is not empty: before any
registration it holds the two active default users — `admin` with id 1 and
role admin, `testuser` with id 2 and role user — `count` is 2 and the next
id to be assigned is 3. -/
theorem C10_default_store_contents (now : Nat) :
    (UserStorage.init now).count = 2 ∧
    (UserStorage.init now).next_id = 3 ∧
    (UserStorage.init now).get_user_by_id 1 = some
      { id := 1, username := "admin", email := some "admin@titanic.local",
        password_hash := hash_password "admin123", role := .admin,
        is_active := true, created_at := now } ∧
    (UserStorage.init now).get_user_by_username "admin" = some
      { id := 1, username := "admin", email := some "admin@titanic.local",
        password_hash := hash_password "admin123", role := .admin,
        is_active := true, created_at := now } ∧
    (UserStorage.init now).get_user_by_id 2 = some
      { id := 2, username := "testuser", email := some "user@titanic.local",
        password_hash := hash_password "user123", role := .user,
        is_active := true, created_at := now } ∧
    (UserStorage.init now).get_user_by_username "testuser" = some
      { id := 2, username := "testuser", email := some "user@titanic.local",
        password_hash := hash_password "user123", role := .user,
        is_active := true, created_at := now } := by
  refine ⟨rfl, rfl, ?_, ?_, ?_, ?_⟩ <;> rfl

/-- C1: evaluation of the code at the failing input.  On a fresh store the
first user successfully created by registration (`alice`) receives role
`user`, not `admin`: `register` passes no role to `create_user`, whose
default is `UserRole.user`, and the seeding in `_create_default_users`
already placed an admin in the store.  This contradicts the claim and the
register endpoint's own docstring, which both say the first registered user
automatically receives role admin. -/
theorem C1_first_registered_user_gets_role_user :
    (match AuthService.register
        { username := "alice", password := "pw123456", email := none }
        (UserStorage.init 0) 0 with
     | .ok (_, st₁) => (st₁.get_user_by_username "alice").map UserInDB.role
     | .error _ => none) = some UserRole.user := by
  rfl

/-- C6: for two registration attempts whose usernames agree after
case-folding, the first succeeds and the second fails with a 400 carrying
the duplicate-username message; the failing call returns no store, so it
creates no user. -/
theorem C6_duplicate_casefolded_username (st : UserStorage)
    (d₁ d₂ : RegisterRequest) (now₁ now₂ : Nat)
    (hfold : pyLower d₁.username = pyLower d₂.username)
    (hfree : dictGet (pyLower d₁.username) st.users_by_username = none) :
    ∃ resp st₁,
      AuthService.register d₁ st now₁ = .ok (resp, st₁) ∧
      AuthService.register d₂ st₁ now₂ =
        .error { status := 400,
                 detail := "User with username " ++ d₂.username ++ " already exists" } := by
  refine ⟨_, _, register_ok_of_free st d₁ now₁ hfree, ?_⟩
  apply register_error_of_taken
  rw [← hfold]
  simp only [dictGet_insert_self, Option.isSome_some]

/-- Witness for C6: `admin2` then `Admin2` on a fresh store. -/
theorem C6_witness :
    pyLower "admin2" = pyLower "Admin2" ∧
    dictGet (pyLower "admin2") (UserStorage.init 0).users_by_username = none ∧
    (∃ resp st₁,
      AuthService.register { username := "admin2", password := "pw123456", email := none }
          (UserStorage.init 0) 0 = .ok (resp, st₁) ∧
      AuthService.register { username := "Admin2", password := "zz123456", email := none }
          st₁ 7 =
        .error { status := 400,
                 detail := "User with username " ++ "Admin2" ++ " already exists" }) :=
  ⟨by decide, by decide,
    C6_duplicate_casefolded_username (UserStorage.init 0)
      { username := "admin2", password := "pw123456", email := none }
      { username := "Admin2", password := "zz123456", email := none }
      0 7 (by decide) (by decide)⟩

/-- C8: with the id present, the email update stores a copy of the record
whose only changed field is the email (`{ u with email := some e }` keeps
id, username, password hash, role, active flag and creation time), touching
only that user's entries in the two indices and leaving every other id, the
refresh-token set and the id counter unchanged; with the id absent it
returns none and the store exactly as it was. -/
theorem C8_update_email_frame (st : UserStorage) (uid : Nat) (e : String) :
    (∀ u, dictGet uid st.users = some u →
       st.update_user uid (some e) =
         (some { u with email := some e },
          { st with
            users := dictInsert uid { u with email := some e } st.users,
            users_by_username :=
              dictInsert u.username { u with email := some e } st.users_by_username }) ∧
       (∀ j, j ≠ uid →
          dictGet j (st.update_user uid (some e)).2.users = dictGet j st.users) ∧
       dictGet uid (st.update_user uid (some e)).2.users = some { u with email := some e } ∧
       (st.update_user uid (some e)).2.refresh_tokens = st.refresh_tokens ∧
       (st.update_user uid (some e)).2.next_id = st.next_id) ∧
    (dictGet uid st.users = none → st.update_user uid (some e) = (none, st)) := by
  constructor
  · intro u hu
    have heq : st.update_user uid (some e) =
        (some { u with email := some e },
         { st with
           users := dictInsert uid { u with email := some e } st.users,
           users_by_username :=
             dictInsert u.username { u with email := some e } st.users_by_username }) := by
      unfold UserStorage.update_user
      rw [hu]
    refine ⟨heq, ?_, ?_, ?_, ?_⟩
    · intro j hj
      rw [heq]
      exact dictGet_insert_ne _ _ hj
    · rw [heq]
      exact dictGet_insert_self _ _ _
    · rw [heq]
    · rw [heq]
  · intro hu
    unfold UserStorage.update_user
    rw [hu]

/-- Witness for C8: updating the default admin's email, and a vanished id. -/
theorem C8_witness :
    (dictGet 1 (UserStorage.init 5).users = some
       { id := 1, username := "admin", email := some "admin@titanic.local",
         password_hash := hash_password "admin123", role := .admin,
         is_active := true, created_at := 5 } ∧
     (UserStorage.init 5).update_user 1 (some "new@titanic.local") =
       (some { id := 1, username := "admin", email := some "new@titanic.local",
               password_hash := hash_password "admin123", role := .admin,
               is_active := true, created_at := 5 },
        { UserStorage.init 5 with
          users := dictInsert 1
            { id := 1, username := "admin", email := some "new@titanic.local",
              password_hash := hash_password "admin123", role := .admin,
              is_active := true, created_at := 5 } (UserStorage.init 5).users,
          users_by_username := dictInsert "admin"
            { id := 1, username := "admin", email := some "new@titanic.local",
              password_hash := hash_password "admin123", role := .admin,
              is_active := true, created_at := 5 } (UserStorage.init 5).users_by_username })) ∧
    (dictGet 99 (UserStorage.init 5).users = none ∧
     (UserStorage.init 5).update_user 99 (some "x@y.z") = (none, UserStorage.init 5)) :=
  ⟨⟨by decide,
    ((C8_update_email_frame (UserStorage.init 5) 1 "new@titanic.local").1
      { id := 1, username := "admin", email := some "admin@titanic.local",
        password_hash := hash_password "admin123", role := .admin,
        is_active := true, created_at := 5 } (by decide)).1⟩,
   ⟨by decide, (C8_update_email_frame (UserStorage.init 5) 99 "x@y.z").2 (by decide)⟩⟩

/-- C9: revoking a refresh token that is not in the set leaves the store
exactly as it was (no error is possible: the operation is total); discarding
twice equals discarding once; and at the endpoint level, when a logout call
succeeds, repeating it with the same refresh token succeeds again (204, not
an error) and returns the same store. -/
theorem C9_logout_idempotent :
    (∀ (st : UserStorage) (t : JwtString), st.is_refresh_token_valid t = false →
       st.remove_refresh_token t = st) ∧
    (∀ (st : UserStorage) (t : JwtString),
       (st.remove_refresh_token t).remove_refresh_token t = st.remove_refresh_token t) ∧
    (∀ (auth : Option String) (tm : String → JwtString) (req : JwtString)
       (st st₁ : UserStorage) (now : Nat),
       AuthService.logout auth tm req st now = .ok st₁ →
       AuthService.logout auth tm req st₁ now = .ok st₁) := by
  refine ⟨?_, ?_, ?_⟩
  · intro st t h
    have h' : setMem t st.refresh_tokens = false := h
    show { st with refresh_tokens := setDiscard t st.refresh_tokens } = st
    rw [setDiscard_of_not_mem h']
  · intro st t
    show ({ st with refresh_tokens :=
            setDiscard t (setDiscard t st.refresh_tokens) } : UserStorage) =
         { st with refresh_tokens := setDiscard t st.refresh_tokens }
    rw [setDiscard_idem]
  · intro auth tm req st st₁ now h
    unfold AuthService.logout at h ⊢
    cases hga : AuthService.get_current_active_user auth tm st now with
    | error e =>
      rw [hga] at h
      simp at h
    | ok u =>
      rw [hga] at h
      simp only [Except.ok.injEq] at h
      subst h
      have hsame : AuthService.get_current_active_user auth tm
          (st.remove_refresh_token req) now =
          AuthService.get_current_active_user auth tm st now := rfl
      rw [hsame, hga]
      have h2 : (st.remove_refresh_token req).remove_refresh_token req =
          st.remove_refresh_token req := by
        show ({ st with refresh_tokens :=
                setDiscard req (setDiscard req st.refresh_tokens) } : UserStorage) =
             { st with refresh_tokens := setDiscard req st.refresh_tokens }
        rw [setDiscard_idem]
      rw [h2]

/-- Witness for C9: double logout of an absent token by the default admin. -/
theorem C9_witness :
    ((UserStorage.init 0).is_refresh_token_valid (JwtString.garbage "gone") = false ∧
     (UserStorage.init 0).remove_refresh_token (JwtString.garbage "gone") =
       UserStorage.init 0) ∧
    (((UserStorage.init 0).remove_refresh_token (JwtString.garbage "gone")).remove_refresh_token
        (JwtString.garbage "gone") =
      (UserStorage.init 0).remove_refresh_token (JwtString.garbage "gone")) ∧
    (AuthService.logout (some "Bearer token123") adminTokenMeaning (JwtString.garbage "gone")
        (UserStorage.init 0) 0 = .ok (UserStorage.init 0) ∧
     AuthService.logout (some "Bearer token123") adminTokenMeaning (JwtString.garbage "gone")
        (UserStorage.init 0) 0 = .ok (UserStorage.init 0)) :=
  ⟨⟨by decide,
    C9_logout_idempotent.1 (UserStorage.init 0) (JwtString.garbage "gone") (by decide)⟩,
   C9_logout_idempotent.2.1 (UserStorage.init 0) (JwtString.garbage "gone"),
   by decide,
   C9_logout_idempotent.2.2 (some "Bearer token123") adminTokenMeaning
     (JwtString.garbage "gone") (UserStorage.init 0) (UserStorage.init 0) 0 (by decide)⟩

/-- C3: decoding a freshly issued access token recovers exactly the
username, user id and role, and its type claim checks as access; once the
configured expiry instant has been reached, decode returns none for the
very token that decoded successfully before. -/
theorem C3_access_token_roundtrip_and_expiry (username : String) (uid : Nat)
    (role : String) (now delta t : Nat) (hdelta : 0 < delta) :
    decode_token (create_access_token
        { sub := username, user_id := uid, role := role } now (some delta)) now =
      some { username := some username, user_id := some uid, role := some role } ∧
    verify_token_type (create_access_token
        { sub := username, user_id := uid, role := role } now (some delta))
      "access" now = true ∧
    (now + delta ≤ t →
      decode_token (create_access_token
          { sub := username, user_id := uid, role := role } now (some delta)) t = none) := by
  have hlt : now < now + delta := Nat.lt_add_of_pos_right hdelta
  refine ⟨?_, ?_, ?_⟩
  · unfold decode_token create_access_token jwtEncode jwtDecode
    simp [hlt]
  · unfold verify_token_type create_access_token jwtEncode jwtDecode
    simp [hlt]
  · intro ht
    have hge : ¬ (t < now + delta) := by omega
    unfold decode_token create_access_token jwtEncode jwtDecode
    simp [hge]

/-- Witness for C3: alice's token at issue time 100, checked again at 1000. -/
theorem C3_witness :
    0 < 900 ∧
    (decode_token (create_access_token
        { sub := "alice", user_id := 3, role := "user" } 100 (some 900)) 100 =
       some { username := some "alice", user_id := some 3, role := some "user" } ∧
     verify_token_type (create_access_token
        { sub := "alice", user_id := 3, role := "user" } 100 (some 900)) "access" 100 = true ∧
     (100 + 900 ≤ 1000 →
       decode_token (create_access_token
          { sub := "alice", user_id := 3, role := "user" } 100 (some 900)) 1000 = none)) :=
  ⟨by decide, C3_access_token_roundtrip_and_expiry "alice" 3 "user" 100 900 1000 (by decide)⟩

/-- C5: a signed token whose type claim is access is rejected by the refresh
endpoint with 401 — with no assumption on its expiry, hence in particular
when it is well-formed, correctly signed and unexpired — and the type check
itself returns false instead of erroring whenever the underlying decode
fails. -/
theorem C5_refresh_rejects_access_tokens :
    (∀ (claims : JwtClaims) (st : UserStorage) (now : Nat),
       claims.type = some "access" →
       AuthService.refresh_token (JwtString.signed claims SECRET_KEY) st now =
         .error { status := 401, detail := "Invalid token type. Refresh token required" }) ∧
    (∀ (token : JwtString) (expected : String) (now : Nat),
       jwtDecode token SECRET_KEY now = none →
       verify_token_type token expected now = false) := by
  constructor
  · intro claims st now htype
    have hv : verify_token_type (JwtString.signed claims SECRET_KEY) "refresh" now = false := by
      unfold verify_token_type jwtDecode
      by_cases hexp : now < claims.exp
      · simp [hexp, htype]
      · simp [hexp]
    unfold AuthService.refresh_token
    simp [hv]
  · intro token expected now h
    unfold verify_token_type
    rw [h]

/-- Witness for C5: a live access token at the refresh endpoint, and a
non-token string at the type check. -/
theorem C5_witness :
    ((JwtClaims.mk (some "admin") (some 1) (some "admin") (some "access") 900).type =
       some "access" ∧
     AuthService.refresh_token
        (JwtString.signed ⟨some "admin", some 1, some "admin", some "access", 900⟩ SECRET_KEY)
        (UserStorage.init 0) 0 =
       .error { status := 401, detail := "Invalid token type. Refresh token required" }) ∧
    (jwtDecode (JwtString.garbage "xyz") SECRET_KEY 0 = none ∧
     verify_token_type (JwtString.garbage "xyz") "refresh" 0 = false) :=
  ⟨⟨rfl, C5_refresh_rejects_access_tokens.1
      ⟨some "admin", some 1, some "admin", some "access", 900⟩ (UserStorage.init 0) 0 rfl⟩,
   ⟨rfl, C5_refresh_rejects_access_tokens.2 (JwtString.garbage "xyz") "refresh" 0 rfl⟩⟩

/-- C7: in the passenger service's authenticate stage, a downstream 401 from
the identity service surfaces as the caller's 401, any other non-200 status
and a network/connection failure surface as 503 (never as an authentication
failure), and a 200 yields the downstream identity body. -/
theorem C7_remote_guard_status_mapping {α : Type} (header : String) (body : α) (code : Nat) :
    (PassengerService.get_current_user (some header)
        (PassengerService.DownstreamResult.response 401 body) =
       .error { status := 401, detail := "Invalid or expired token" }) ∧
    (code ≠ 200 → code ≠ 401 →
       PassengerService.get_current_user (some header)
           (PassengerService.DownstreamResult.response code body) =
         .error { status := 503, detail := "Auth service unavailable" }) ∧
    (PassengerService.get_current_user (some header)
        (PassengerService.DownstreamResult.networkError : PassengerService.DownstreamResult α) =
       .error { status := 503, detail := "Cannot connect to Auth Service" }) ∧
    (PassengerService.get_current_user (some header)
        (PassengerService.DownstreamResult.response 200 body) = .ok body) := by
  refine ⟨rfl, ?_, rfl, rfl⟩
  intro h200 h401
  unfold PassengerService.get_current_user
  simp [h401, h200]

/-- Witness for C7: a downstream 500 surfaces as 503. -/
theorem C7_witness :
    (500 ≠ 200) ∧ (500 ≠ 401) ∧
    PassengerService.get_current_user (some "Bearer tok")
        (PassengerService.DownstreamResult.response 500 (0 : Nat)) =
      .error { status := 503, detail := "Auth service unavailable" } :=
  ⟨by decide, by decide,
   (C7_remote_guard_status_mapping "Bearer tok" (0 : Nat) 500).2.1 (by decide) (by decide)⟩

/-- C2: the authenticate stage is a total function whose every failure is a
401 (no uncaught exception exists in the embedding): it fails when the
header is absent; when the header does not split into exactly two
whitespace-separated words whose first case-folds to bearer; when the token
does not decode (bad signature, malformed and expired tokens all decode to
none in the model, as does a token without a username claim); and when the
referenced user is not in the store.  On success it yields exactly the
stored user's identity — id, username, email, role, active flag, creation
time — with the password hash stripped (the `User` result has no such
field). -/
theorem C2_authenticate_guard (auth : Option String) (tm : String → JwtString)
    (st : UserStorage) (now : Nat) :
    (∀ e, AuthService.get_current_user auth tm st now = .error e → e.status = 401) ∧
    (auth = none → ∃ e, AuthService.get_current_user auth tm st now = .error e) ∧
    (∀ header, auth = some header →
       (¬ ∃ scheme token, pyWords header = [scheme, token] ∧ pyLower scheme = "bearer") →
       ∃ e, AuthService.get_current_user auth tm st now = .error e) ∧
    (∀ header scheme token, auth = some header → pyWords header = [scheme, token] →
       decode_token (tm token) now = none →
       ∃ e, AuthService.get_current_user auth tm st now = .error e) ∧
    (∀ header scheme token td uname, auth = some header →
       pyWords header = [scheme, token] → decode_token (tm token) now = some td →
       td.username = some uname → st.get_user_by_username uname = none →
       ∃ e, AuthService.get_current_user auth tm st now = .error e) ∧
    (∀ u, AuthService.get_current_user auth tm st now = .ok u →
       ∃ header scheme token td uname udb,
         auth = some header ∧ pyWords header = [scheme, token] ∧
         pyLower scheme = "bearer" ∧ decode_token (tm token) now = some td ∧
         td.username = some uname ∧ st.get_user_by_username uname = some udb ∧
         u = { id := udb.id, username := udb.username, email := udb.email,
               role := udb.role, is_active := udb.is_active,
               created_at := udb.created_at }) := by
  refine ⟨?_, ?_, ?_, ?_, ?_, ?_⟩
  · intro e he
    rcases auth with _ | header
    · simp [AuthService.get_current_user] at he
      subst he
      rfl
    · rcases hw : pyWords header with _ | ⟨scheme, _ | ⟨token, _ | ⟨w, ws⟩⟩⟩
      · simp [AuthService.get_current_user, hw] at he
        subst he
        rfl
      · simp [AuthService.get_current_user, hw] at he
        subst he
        rfl
      · by_cases hb : pyLower scheme = "bearer"
        · rcases hd : decode_token (tm token) now with _ | td
          · simp [AuthService.get_current_user, hw, hb, hd] at he
            subst he
            rfl
          · rcases ht : td.username with _ | uname
            · simp [AuthService.get_current_user, hw, hb, hd, ht] at he
              subst he
              rfl
            · rcases hu : st.get_user_by_username uname with _ | udb
              · simp [AuthService.get_current_user, hw, hb, hd, ht, hu] at he
                subst he
                rfl
              · simp [AuthService.get_current_user, hw, hb, hd, ht, hu] at he
        · simp [AuthService.get_current_user, hw, hb] at he
          subst he
          rfl
      · simp [AuthService.get_current_user, hw] at he
        subst he
        rfl
  · intro hnone
    subst hnone
    exact ⟨_, rfl⟩
  · intro header hsome hnotform
    subst hsome
    rcases hw : pyWords header with _ | ⟨scheme, _ | ⟨token, _ | ⟨w, ws⟩⟩⟩
    · exact ⟨{ status := 401, detail := "Invalid authorization header format. Use: Bearer <token>" }, by simp [AuthService.get_current_user, hw]⟩
    · exact ⟨{ status := 401, detail := "Invalid authorization header format. Use: Bearer <token>" }, by simp [AuthService.get_current_user, hw]⟩
    · by_cases hb : pyLower scheme = "bearer"
      · exact absurd ⟨scheme, token, hw, hb⟩ hnotform
      · exact ⟨{ status := 401, detail := "Invalid authorization header format. Use: Bearer <token>" }, by simp [AuthService.get_current_user, hw, hb]⟩
    · exact ⟨{ status := 401, detail := "Invalid authorization header format. Use: Bearer <token>" }, by simp [AuthService.get_current_user, hw]⟩
  · intro header scheme token hsome hw hd
    subst hsome
    by_cases hb : pyLower scheme = "bearer"
    · exact ⟨{ status := 401, detail := "Could not validate credentials" }, by simp [AuthService.get_current_user, hw, hb, hd]⟩
    · exact ⟨{ status := 401, detail := "Invalid authorization header format. Use: Bearer <token>" }, by simp [AuthService.get_current_user, hw, hb]⟩
  · intro header scheme token td uname hsome hw hd ht hu
    subst hsome
    by_cases hb : pyLower scheme = "bearer"
    · exact ⟨{ status := 401, detail := "Could not validate credentials" }, by simp [AuthService.get_current_user, hw, hb, hd, ht, hu]⟩
    · exact ⟨{ status := 401, detail := "Invalid authorization header format. Use: Bearer <token>" }, by simp [AuthService.get_current_user, hw, hb]⟩
  · intro u hu
    rcases auth with _ | header
    · simp [AuthService.get_current_user] at hu
    · rcases hw : pyWords header with _ | ⟨scheme, _ | ⟨token, _ | ⟨w, ws⟩⟩⟩
      · simp [AuthService.get_current_user, hw] at hu
      · simp [AuthService.get_current_user, hw] at hu
      · by_cases hb : pyLower scheme = "bearer"
        · rcases hd : decode_token (tm token) now with _ | td
          · simp [AuthService.get_current_user, hw, hb, hd] at hu
          · rcases ht : td.username with _ | uname
            · simp [AuthService.get_current_user, hw, hb, hd, ht] at hu
            · rcases hg : st.get_user_by_username uname with _ | udb
              · simp [AuthService.get_current_user, hw, hb, hd, ht, hg] at hu
              · simp [AuthService.get_current_user, hw, hb, hd, ht, hg] at hu
                exact ⟨header, scheme, token, td, uname, udb, rfl, hw, hb, hd, ht, hg,
                  hu.symm⟩
        · simp [AuthService.get_current_user, hw, hb] at hu
      · simp [AuthService.get_current_user, hw] at hu

/-- Witness for C2: the absent-header case on a fresh store. -/
theorem C2_witness :
    ∃ e, AuthService.get_current_user none adminTokenMeaning (UserStorage.init 0) 0 =
        Except.error e ∧ e.status = 401 := by
  obtain ⟨e, he⟩ :=
    (C2_authenticate_guard none adminTokenMeaning (UserStorage.init 0) 0).2.1 rfl
  exact ⟨e, he,
    (C2_authenticate_guard none adminTokenMeaning (UserStorage.init 0) 0).1 e he⟩

/-- C4: two refresh tokens are recorded in the store (as two logins would
do); a logout then revokes the first.  Afterwards every refresh call with
the revoked token is rejected with a 401 (either at the type check or,
when that passes, at the revocation-set check — the token is no longer a
member), while the other token — issued for an existing active user, still
fresh and never revoked — is accepted by refresh and yields a new access
token with the same refresh token echoed back.  The refresh endpoint never
mutates the store, so the same outcome holds for every later call. -/
theorem C4_revoked_rejected_live_accepted
    (st : UserStorage) (auth : Option String) (tm : String → JwtString)
    (rA : JwtString) (data : TokenPayload) (issue now : Nat)
    (u : UserInDB) (st₂ : UserStorage)
    (hne : rA ≠ create_refresh_token data issue)
    (hlogout : AuthService.logout auth tm rA
        ((st.add_refresh_token rA).add_refresh_token (create_refresh_token data issue)) now
        = .ok st₂)
    (hfresh : now < issue + REFRESH_TOKEN_EXPIRE_DAYS * 86400)
    (hsub : data.sub ≠ "")
    (huser : st.get_user_by_username data.sub = some u)
    (hactive : u.is_active = true) :
    (∃ e, AuthService.refresh_token rA st₂ now = .error e ∧ e.status = 401) ∧
    AuthService.refresh_token (create_refresh_token data issue) st₂ now =
      .ok { access_token := create_access_token
              { sub := u.username, user_id := u.id, role := u.role.value }
              now (some (ACCESS_TOKEN_EXPIRE_MINUTES * 60)),
            refresh_token := create_refresh_token data issue,
            token_type := "bearer",
            expires_in := ACCESS_TOKEN_EXPIRE_MINUTES * 60 } := by
  have hst₂ : st₂ =
      (((st.add_refresh_token rA).add_refresh_token
        (create_refresh_token data issue)).remove_refresh_token rA) := by
    unfold AuthService.logout at hlogout
    cases hga : AuthService.get_current_active_user auth tm
        ((st.add_refresh_token rA).add_refresh_token (create_refresh_token data issue))
        now with
    | error e =>
      rw [hga] at hlogout
      simp at hlogout
    | ok v =>
      rw [hga] at hlogout
      simp only [Except.ok.injEq] at hlogout
      exact hlogout.symm
  subst hst₂
  constructor
  · by_cases hv : verify_token_type rA "refresh" now = true
    · refine ⟨{ status := 401,
                detail := "Refresh token has been revoked or is invalid" }, ?_, rfl⟩
      have hmem : setMem rA
          (setDiscard rA (setAdd (create_refresh_token data issue)
            (setAdd rA st.refresh_tokens))) = false := setMem_setDiscard_self _ _
      unfold AuthService.refresh_token
      simp [hv, UserStorage.is_refresh_token_valid, UserStorage.remove_refresh_token,
        UserStorage.add_refresh_token, hmem]
    · refine ⟨{ status := 401,
                detail := "Invalid token type. Refresh token required" }, ?_, rfl⟩
      unfold AuthService.refresh_token
      simp [hv]
  · have hvB : verify_token_type (create_refresh_token data issue) "refresh" now = true := by
      unfold verify_token_type create_refresh_token jwtEncode jwtDecode
      simp [hfresh]
    have hmemB : setMem (create_refresh_token data issue)
        (setDiscard rA (setAdd (create_refresh_token data issue)
          (setAdd rA st.refresh_tokens))) = true := by
      rw [setMem_setDiscard_ne _ (fun hEq => hne hEq.symm)]
      exact setMem_setAdd_self _ _
    have hdecB : decode_token (create_refresh_token data issue) now =
        some { username := some data.sub, user_id := some data.user_id,
               role := some data.role } := by
      unfold decode_token create_refresh_token jwtEncode jwtDecode
      simp [hfresh]
    unfold AuthService.refresh_token
    simp [hvB, UserStorage.is_refresh_token_valid, UserStorage.remove_refresh_token,
      UserStorage.add_refresh_token, hmemB, hdecB, hsub,
      UserStorage.get_user_by_username,
      show dictGet (pyLower data.sub) st.users_by_username = some u from huser, hactive]

/-- Witness for C4: on the fresh store with the default users, testuser's
refresh token is revoked by logout and then rejected, while the admin's
refresh token issued at the same time keeps working. -/
theorem C4_witness :
    (create_refresh_token { sub := "testuser", user_id := 2, role := "user" } 0 ≠
       create_refresh_token { sub := "admin", user_id := 1, role := "admin" } 0) ∧
    (AuthService.logout (some "Bearer x") adminTokenMeaning
        (create_refresh_token { sub := "testuser", user_id := 2, role := "user" } 0)
        (((UserStorage.init 0).add_refresh_token
            (create_refresh_token { sub := "testuser", user_id := 2, role := "user" } 0)).add_refresh_token
          (create_refresh_token { sub := "admin", user_id := 1, role := "admin" } 0)) 5 =
      .ok { UserStorage.init 0 with
            refresh_tokens :=
              [create_refresh_token { sub := "admin", user_id := 1, role := "admin" } 0] }) ∧
    (∃ e, AuthService.refresh_token
        (create_refresh_token { sub := "testuser", user_id := 2, role := "user" } 0)
        { UserStorage.init 0 with
          refresh_tokens :=
            [create_refresh_token { sub := "admin", user_id := 1, role := "admin" } 0] } 5 =
        .error e ∧ e.status = 401) ∧
    AuthService.refresh_token
        (create_refresh_token { sub := "admin", user_id := 1, role := "admin" } 0)
        { UserStorage.init 0 with
          refresh_tokens :=
            [create_refresh_token { sub := "admin", user_id := 1, role := "admin" } 0] } 5 =
      .ok { access_token := create_access_token
              { sub := "admin", user_id := 1, role := "admin" } 5
              (some (ACCESS_TOKEN_EXPIRE_MINUTES * 60)),
            refresh_token := create_refresh_token
              { sub := "admin", user_id := 1, role := "admin" } 0,
            token_type := "bearer",
            expires_in := ACCESS_TOKEN_EXPIRE_MINUTES * 60 } := by
  have h := C4_revoked_rejected_live_accepted (UserStorage.init 0) (some "Bearer x")
    adminTokenMeaning
    (create_refresh_token { sub := "testuser", user_id := 2, role := "user" } 0)
    { sub := "admin", user_id := 1, role := "admin" } 0 5
    { id := 1, username := "admin", email := some "admin@titanic.local",
      password_hash := hash_password "admin123", role := .admin,
      is_active := true, created_at := 0 }
    { UserStorage.init 0 with
      refresh_tokens :=
        [create_refresh_token { sub := "admin", user_id := 1, role := "admin" } 0] }
    (by decide) (by decide) (by decide) (by decide) (by decide) (by decide)
  exact ⟨by decide, by decide, h.1, h.2⟩
